import Mathlib

/-!
Verification development for the `ai-tool-adapter` library.

The library converts a provider-neutral tool description (`UniversalTool`,
`ToolParam` from `src/types.ts`) into the JSON tool/function-calling formats
of four LLM providers.  Each provider has one adapter function
(`openaiAdapter`, `anthropicAdapter`, `geminiAdapter`, `mistralAdapter`),
and `src/index.ts` holds the registry (`adapters`), the dispatcher
(`adapt`), the batch API (`adaptAll`) and `getProviders`.

The embedding below models JavaScript objects as ordered association lists
inside a small JSON value type, so that key insertion order and key
presence/absence are faithfully represented.  Optional TypeScript fields
become `Option`; JavaScript truthiness tests on optional strings/booleans
become the explicit helpers `truthyOptStr` / `truthyOptBool`; the
`default !== undefined` presence test becomes a `match` on the `Option`.
The four adapters are deliberately kept as four independent definitions,
mirroring the source, which shares no code between them.
-/

/-- JSON values.  Objects are ordered key/value lists, mirroring JavaScript
object key insertion order. -/
inductive Json where
  | null : Json
  | bool (b : Bool) : Json
  | num (n : Int) : Json
  | str (s : String) : Json
  | arr (elems : List Json) : Json
  | obj (entries : List (String × Json)) : Json

/-- The five parameter kinds of `ParamType` in `src/types.ts`. -/
inductive ParamType where
  | string : ParamType
  | number : ParamType
  | boolean : ParamType
  | array : ParamType
  | object : ParamType
  deriving Repr, DecidableEq

/-- The runtime string carried by a `ParamType` value. -/
def ParamType.toStr : ParamType → String
  | .string => "string"
  | .number => "number"
  | .boolean => "boolean"
  | .array => "array"
  | .object => "object"

/-- `ToolParam` from `src/types.ts`.  `items` models the `{ type: ParamType }`
record by its single field; `properties` is the recursive nested-object
field, unused by every adapter. -/
inductive ToolParam where
  | mk (type : ParamType)
       (description : Option String)
       (required : Option Bool)
       (default : Option Json)
       (enum : Option (List String))
       (items : Option ParamType)
       (properties : Option (List (String × ToolParam))) : ToolParam

def ToolParam.type : ToolParam → ParamType
  | .mk t _ _ _ _ _ _ => t

def ToolParam.description : ToolParam → Option String
  | .mk _ d _ _ _ _ _ => d

def ToolParam.required : ToolParam → Option Bool
  | .mk _ _ r _ _ _ _ => r

def ToolParam.default : ToolParam → Option Json
  | .mk _ _ _ v _ _ _ => v

def ToolParam.enum : ToolParam → Option (List String)
  | .mk _ _ _ _ e _ _ => e

def ToolParam.items : ToolParam → Option ParamType
  | .mk _ _ _ _ _ i _ => i

def ToolParam.properties : ToolParam → Option (List (String × ToolParam))
  | .mk _ _ _ _ _ _ p => p

/-- `UniversalTool` from `src/types.ts`; `params` is the ordered
name-to-parameter mapping. -/
structure UniversalTool where
  name : String
  description : String
  params : List (String × ToolParam)

/-- JavaScript truthiness of an optional boolean field
(`if (paramDef.required)`): truthy exactly when the value `true` was
supplied. -/
def truthyOptBool (o : Option Bool) : Bool :=
  o.getD false

/-- JavaScript truthiness of an optional string field
(`if (param.description)`): truthy exactly when a non-empty string was
supplied. -/
def truthyOptStr : Option String → Bool
  | some s => !s.isEmpty
  | none   => false

/-- `convertParam` from `src/adapters/openai.ts`: builds the property
descriptor with keys in source assignment order
(type, description, enum, default, items). -/
def convertParamOpenai (param : ToolParam) : Json :=
  Json.obj (
    [("type", Json.str param.type.toStr)]
    ++ (match param.description with
        | some d => if d.isEmpty then [] else [("description", Json.str d)]
        | none => [])
    ++ (match param.enum with
        | some vs => [("enum", Json.arr (vs.map Json.str))]
        | none => [])
    ++ (match param.default with
        | some v => [("default", v)]
        | none => [])
    ++ (match param.type, param.items with
        | ParamType.array, some it => [("items", Json.obj [("type", Json.str it.toStr)])]
        | _, _ => []))

/-- `openaiAdapter` from `src/adapters/openai.ts`. -/
def openaiAdapter (tool : UniversalTool) : Json :=
  Json.obj [
    ("type", Json.str "function"),
    ("function", Json.obj [
      ("name", Json.str tool.name),
      ("description", Json.str tool.description),
      ("parameters", Json.obj [
        ("type", Json.str "object"),
        ("properties", Json.obj (tool.params.map (fun e => (e.1, convertParamOpenai e.2)))),
        ("required", Json.arr ((tool.params.filter
          (fun e => truthyOptBool e.2.required)).map (fun e => Json.str e.1)))])])]

/-- `convertParam` from `src/adapters/anthropic.ts`. -/
def convertParamAnthropic (param : ToolParam) : Json :=
  Json.obj (
    [("type", Json.str param.type.toStr)]
    ++ (match param.description with
        | some d => if d.isEmpty then [] else [("description", Json.str d)]
        | none => [])
    ++ (match param.enum with
        | some vs => [("enum", Json.arr (vs.map Json.str))]
        | none => [])
    ++ (match param.default with
        | some v => [("default", v)]
        | none => [])
    ++ (match param.type, param.items with
        | ParamType.array, some it => [("items", Json.obj [("type", Json.str it.toStr)])]
        | _, _ => []))

/-- `anthropicAdapter` from `src/adapters/anthropic.ts`: flat envelope with
`input_schema`. -/
def anthropicAdapter (tool : UniversalTool) : Json :=
  Json.obj [
    ("name", Json.str tool.name),
    ("description", Json.str tool.description),
    ("input_schema", Json.obj [
      ("type", Json.str "object"),
      ("properties", Json.obj (tool.params.map (fun e => (e.1, convertParamAnthropic e.2)))),
      ("required", Json.arr ((tool.params.filter
        (fun e => truthyOptBool e.2.required)).map (fun e => Json.str e.1)))])]

/-- `toGeminiType` from `src/adapters/gemini.ts`. -/
def toGeminiType (type : String) : String :=
  type.toUpper

/-- `convertParam` from `src/adapters/gemini.ts`: like the others but with
upper-cased structural type tags. -/
def convertParamGemini (param : ToolParam) : Json :=
  Json.obj (
    [("type", Json.str (toGeminiType param.type.toStr))]
    ++ (match param.description with
        | some d => if d.isEmpty then [] else [("description", Json.str d)]
        | none => [])
    ++ (match param.enum with
        | some vs => [("enum", Json.arr (vs.map Json.str))]
        | none => [])
    ++ (match param.default with
        | some v => [("default", v)]
        | none => [])
    ++ (match param.type, param.items with
        | ParamType.array, some it =>
            [("items", Json.obj [("type", Json.str (toGeminiType it.toStr))])]
        | _, _ => []))

/-- `geminiAdapter` from `src/adapters/gemini.ts`: flat envelope,
`parameters` container with constant `"OBJECT"` tag. -/
def geminiAdapter (tool : UniversalTool) : Json :=
  Json.obj [
    ("name", Json.str tool.name),
    ("description", Json.str tool.description),
    ("parameters", Json.obj [
      ("type", Json.str "OBJECT"),
      ("properties", Json.obj (tool.params.map (fun e => (e.1, convertParamGemini e.2)))),
      ("required", Json.arr ((tool.params.filter
        (fun e => truthyOptBool e.2.required)).map (fun e => Json.str e.1)))])]

/-- `convertParam` from `src/adapters/mistral.ts` (an independent copy of the
OpenAI one in the source). -/
def convertParamMistral (param : ToolParam) : Json :=
  Json.obj (
    [("type", Json.str param.type.toStr)]
    ++ (match param.description with
        | some d => if d.isEmpty then [] else [("description", Json.str d)]
        | none => [])
    ++ (match param.enum with
        | some vs => [("enum", Json.arr (vs.map Json.str))]
        | none => [])
    ++ (match param.default with
        | some v => [("default", v)]
        | none => [])
    ++ (match param.type, param.items with
        | ParamType.array, some it => [("items", Json.obj [("type", Json.str it.toStr)])]
        | _, _ => []))

/-- `mistralAdapter` from `src/adapters/mistral.ts`. -/
def mistralAdapter (tool : UniversalTool) : Json :=
  Json.obj [
    ("type", Json.str "function"),
    ("function", Json.obj [
      ("name", Json.str tool.name),
      ("description", Json.str tool.description),
      ("parameters", Json.obj [
        ("type", Json.str "object"),
        ("properties", Json.obj (tool.params.map (fun e => (e.1, convertParamMistral e.2)))),
        ("required", Json.arr ((tool.params.filter
          (fun e => truthyOptBool e.2.required)).map (fun e => Json.str e.1)))])])]

/-- The adapter registry of `src/index.ts`: `adapters[provider]`, `none`
for an unregistered identifier. -/
def adapters (provider : String) : Option (UniversalTool → Json) :=
  if provider = "openai" then some openaiAdapter
  else if provider = "anthropic" then some anthropicAdapter
  else if provider = "gemini" then some geminiAdapter
  else if provider = "mistral" then some mistralAdapter
  else none

/-- `getProviders` from `src/index.ts`: the registry keys in declaration
order. -/
def getProviders : List String :=
  ["openai", "anthropic", "gemini", "mistral"]

/-- `adapt` from `src/index.ts`: dispatch, throwing (modelled as
`Except.error`) the unknown-provider message when lookup fails. -/
def adapt (tool : UniversalTool) (provider : String) : Except String Json :=
  match adapters provider with
  | some adapter => Except.ok (adapter tool)
  | none => Except.error
      ("Unknown provider: " ++ provider ++ ". Supported providers: "
        ++ String.intercalate ", " getProviders)

/-- `adaptAll` from `src/index.ts`: `tools.map((tool) => adapt(tool, provider))`,
where a thrown error aborts the whole map. -/
def adaptAll (tools : List UniversalTool) (provider : String) :
    Except String (List Json) :=
  tools.mapM (fun tool => adapt tool provider)

/-- First-match key lookup in an ordered object entry list. -/
def lookupKey : List (String × Json) → String → Option Json
  | [], _ => none
  | (k, v) :: rest, key => if k = key then some v else lookupKey rest key

/-- Key lookup on a JSON value: `some` only on objects holding the key. -/
def Json.get : Json → String → Option Json
  | Json.obj entries, key => lookupKey entries key
  | _, _ => none

/-- The key list of a JSON object. -/
def Json.keys : Json → Option (List String)
  | Json.obj entries => some (entries.map Prod.fst)
  | _ => none

/-- Key-path lookup on a JSON value. -/
def Json.getAt : Json → List String → Option Json
  | j, [] => some j
  | j, k :: ks =>
      match j.get k with
      | some v => v.getAt ks
      | none => none

/-- Two parameters that agree on every field except the (unused)
`properties` field. -/
def sameExceptProperties (p q : ToolParam) : Prop :=
  p.type = q.type ∧ p.description = q.description ∧ p.required = q.required
    ∧ p.default = q.default ∧ p.enum = q.enum ∧ p.items = q.items

/-- Fixture: the tool of the concrete Anthropic envelope scenario. -/
def weatherTool : UniversalTool :=
  { name := "get_weather"
    description := "d"
    params := [("location", ToolParam.mk ParamType.string none (some true) none none none none)] }

/-- Fixture: a parameter of array kind with string items. -/
def arrayStringParam : ToolParam :=
  ToolParam.mk ParamType.array none none none none (some ParamType.string) none

/-- Fixture: a parameter carrying every optional field the converters read. -/
def richParam : ToolParam :=
  ToolParam.mk ParamType.array (some "level") (some true) (some (Json.num 0))
    (some ["a", "B"]) (some ParamType.number) none

/-- Fixture: a string-kind parameter that nonetheless carries an `items`
field. -/
def strayItemsParam : ToolParam :=
  ToolParam.mk ParamType.string none none none none (some ParamType.number) none

/-- Fixture: an array-kind parameter without an `items` field. -/
def bareArrayParam : ToolParam :=
  ToolParam.mk ParamType.array none none none none none none

/-- Fixture: a parameterless tool. -/
def sampleTool : UniversalTool :=
  { name := "t", description := "d", params := [] }

/-- Fixture: an object parameter with no nested `properties`. -/
def objParamNoNested : ToolParam :=
  ToolParam.mk ParamType.object (some "cfg") (some true) none none none none

/-- Fixture: the same object parameter, now carrying nested `properties`. -/
def objParamNested : ToolParam :=
  ToolParam.mk ParamType.object (some "cfg") (some true) none none none
    (some [("inner", ToolParam.mk ParamType.string none none none none none none)])

/-- Fixture: a tool using `objParamNoNested`. -/
def nestedToolA : UniversalTool :=
  { name := "n", description := "d", params := [("cfg", objParamNoNested)] }

/-- Fixture: the same tool with `objParamNested` instead. -/
def nestedToolB : UniversalTool :=
  { name := "n", description := "d", params := [("cfg", objParamNested)] }

theorem lookupKey_append (xs ys : List (String × Json)) (k : String) :
    lookupKey (xs ++ ys) k = (lookupKey xs k).or (lookupKey ys k) := by
  induction xs with
  | nil => rfl
  | cons x xs ih =>
      obtain ⟨k', v⟩ := x
      by_cases h : k' = k <;> simp [lookupKey, h, ih]

theorem convertParamAnthropic_eq_openai (p : ToolParam) :
    convertParamAnthropic p = convertParamOpenai p := rfl

theorem convertParamMistral_eq_openai (p : ToolParam) :
    convertParamMistral p = convertParamOpenai p := rfl

theorem convertParamOpenai_get_default (p : ToolParam) :
    (convertParamOpenai p).get "default" = p.default := by
  obtain ⟨ty, desc, req, dflt, en, it, props⟩ := p
  simp only [convertParamOpenai, ToolParam.type, ToolParam.description, ToolParam.default,
    ToolParam.enum, ToolParam.items, Json.get, lookupKey_append]
  cases desc <;> cases en <;> cases dflt <;> cases ty <;> cases it <;>
    simp [lookupKey] <;> split <;> simp [lookupKey]

theorem convertParamGemini_get_default (p : ToolParam) :
    (convertParamGemini p).get "default" = p.default := by
  obtain ⟨ty, desc, req, dflt, en, it, props⟩ := p
  simp only [convertParamGemini, ToolParam.type, ToolParam.description, ToolParam.default,
    ToolParam.enum, ToolParam.items, Json.get, lookupKey_append]
  cases desc <;> cases en <;> cases dflt <;> cases ty <;> cases it <;>
    simp [lookupKey] <;> split <;> simp [lookupKey]

theorem convertParamOpenai_get_items (p : ToolParam) :
    (convertParamOpenai p).get "items" =
      (match p.type, p.items with
       | ParamType.array, some it => some (Json.obj [("type", Json.str it.toStr)])
       | _, _ => none) := by
  obtain ⟨ty, desc, req, dflt, en, it, props⟩ := p
  simp only [convertParamOpenai, ToolParam.type, ToolParam.description, ToolParam.default,
    ToolParam.enum, ToolParam.items, Json.get, lookupKey_append]
  cases desc <;> cases en <;> cases dflt <;> cases ty <;> cases it <;>
    simp [lookupKey] <;> split <;> simp [lookupKey]

theorem convertParamGemini_get_items (p : ToolParam) :
    (convertParamGemini p).get "items" =
      (match p.type, p.items with
       | ParamType.array, some it =>
           some (Json.obj [("type", Json.str it.toStr.toUpper)])
       | _, _ => none) := by
  obtain ⟨ty, desc, req, dflt, en, it, props⟩ := p
  simp only [convertParamGemini, toGeminiType, ToolParam.type, ToolParam.description,
    ToolParam.default, ToolParam.enum, ToolParam.items, Json.get, lookupKey_append]
  cases desc <;> cases en <;> cases dflt <;> cases ty <;> cases it <;>
    simp [lookupKey] <;> split <;> simp [lookupKey]

theorem convertParamGemini_get_type (p : ToolParam) :
    (convertParamGemini p).get "type" = some (Json.str p.type.toStr.toUpper) := rfl

theorem convertParamGemini_get_enum (p : ToolParam) (vs : List String)
    (he : p.enum = some vs) :
    (convertParamGemini p).get "enum" = some (Json.arr (vs.map Json.str)) := by
  obtain ⟨ty, desc, req, dflt, en, it, props⟩ := p
  simp only [ToolParam.enum] at he
  subst he
  simp only [convertParamGemini, toGeminiType, ToolParam.type, ToolParam.description,
    ToolParam.default, ToolParam.enum, ToolParam.items, Json.get, lookupKey_append]
  cases desc <;> cases dflt <;>
    simp [lookupKey] <;> split <;> simp [lookupKey]

theorem convertParamGemini_get_description (p : ToolParam) (d : String)
    (hd : p.description = some d) (hne : d.isEmpty = false) :
    (convertParamGemini p).get "description" = some (Json.str d) := by
  obtain ⟨ty, desc, req, dflt, en, it, props⟩ := p
  simp only [ToolParam.description] at hd
  subst hd
  simp only [convertParamGemini, toGeminiType, ToolParam.type, ToolParam.description,
    ToolParam.default, ToolParam.enum, ToolParam.items, Json.get, lookupKey_append]
  simp [lookupKey, hne]

theorem truthyOptBool_eq_true (r : Option Bool) :
    truthyOptBool r = true ↔ r = some true := by
  cases r <;> simp [truthyOptBool]

/-- C3: the OpenAI-style and Mistral-style converters emit identical output on
every tool definition. -/
theorem openaiAdapter_eq_mistralAdapter (t : UniversalTool) :
    openaiAdapter t = mistralAdapter t := rfl

/-- C5: converting the weather tool with provider "anthropic" yields exactly
the flat Anthropic envelope, with no top-level type or function keys. -/
theorem adapt_anthropic_weather_exact :
    adapt weatherTool "anthropic" = Except.ok (Json.obj [
      ("name", Json.str "get_weather"),
      ("description", Json.str "d"),
      ("input_schema", Json.obj [
        ("type", Json.str "object"),
        ("properties", Json.obj [("location", Json.obj [("type", Json.str "string")])]),
        ("required", Json.arr [Json.str "location"])])])
    ∧ (anthropicAdapter weatherTool).get "type" = none
    ∧ (anthropicAdapter weatherTool).get "function" = none :=
  ⟨rfl, rfl, rfl⟩

/-- C7: every converter copies a supplied default verbatim under the `default`
key and emits no such key when no default was supplied; the falsy defaults 0,
false and the empty string are kept. -/
theorem default_value_passthrough (p : ToolParam) :
    ((convertParamOpenai p).get "default" = p.default
      ∧ (convertParamAnthropic p).get "default" = p.default
      ∧ (convertParamGemini p).get "default" = p.default
      ∧ (convertParamMistral p).get "default" = p.default)
    ∧ (convertParamOpenai (ToolParam.mk ParamType.number none none (some (Json.num 0))
        none none none)).get "default" = some (Json.num 0)
    ∧ (convertParamGemini (ToolParam.mk ParamType.boolean none none (some (Json.bool false))
        none none none)).get "default" = some (Json.bool false)
    ∧ (convertParamMistral (ToolParam.mk ParamType.string none none (some (Json.str ""))
        none none none)).get "default" = some (Json.str "") := by
  refine ⟨⟨convertParamOpenai_get_default p, ?_, convertParamGemini_get_default p, ?_⟩,
    rfl, rfl, rfl⟩
  · rw [convertParamAnthropic_eq_openai]
    exact convertParamOpenai_get_default p
  · rw [convertParamMistral_eq_openai]
    exact convertParamOpenai_get_default p

/-- C10: a converter output carries an `items` key exactly when the parameter
kind is array and an item kind was supplied; a stray `items` on a non-array
parameter is dropped, and an array without `items` gets no placeholder. -/
theorem items_key_iff_array_with_items (p : ToolParam) :
    (((convertParamOpenai p).get "items").isSome
        = (decide (p.type = ParamType.array) && p.items.isSome)
      ∧ ((convertParamAnthropic p).get "items").isSome
        = (decide (p.type = ParamType.array) && p.items.isSome)
      ∧ ((convertParamGemini p).get "items").isSome
        = (decide (p.type = ParamType.array) && p.items.isSome)
      ∧ ((convertParamMistral p).get "items").isSome
        = (decide (p.type = ParamType.array) && p.items.isSome))
    ∧ (convertParamOpenai strayItemsParam).get "items" = none
    ∧ (convertParamGemini strayItemsParam).get "items" = none
    ∧ (convertParamOpenai bareArrayParam).get "items" = none
    ∧ (convertParamGemini bareArrayParam).get "items" = none := by
  refine ⟨⟨?_, ?_, ?_, ?_⟩, rfl, rfl, rfl, rfl⟩ <;>
    simp only [convertParamOpenai_get_items, convertParamGemini_get_items,
      convertParamAnthropic_eq_openai, convertParamMistral_eq_openai] <;>
    obtain ⟨ty, desc, req, dflt, en, it, props⟩ := p <;>
    simp only [ToolParam.type, ToolParam.items] <;>
    cases ty <;> cases it <;> rfl

theorem toGeminiType_eq (s : String) :
    toGeminiType s = String.mk (s.data.map Char.toUpper) :=
  String.map_eq Char.toUpper s

theorem toGeminiType_string_eval : toGeminiType "string" = "STRING" := by
  rw [toGeminiType_eq]; rfl

theorem toGeminiType_number_eval : toGeminiType "number" = "NUMBER" := by
  rw [toGeminiType_eq]; rfl

theorem toGeminiType_boolean_eval : toGeminiType "boolean" = "BOOLEAN" := by
  rw [toGeminiType_eq]; rfl

theorem toGeminiType_array_eval : toGeminiType "array" = "ARRAY" := by
  rw [toGeminiType_eq]; rfl

theorem toGeminiType_object_eval : toGeminiType "object" = "OBJECT" := by
  rw [toGeminiType_eq]; rfl

/-- C4: the Gemini-style converter upper-cases every structural type tag (the
container's constant "OBJECT", each property's tag, each array item's tag)
while copying enum values and descriptions unchanged; the array-of-string
parameter yields ARRAY/STRING under Gemini but array/string under the other
three converters. -/
theorem gemini_uppercase_type_tags :
    (∀ t : UniversalTool,
      (geminiAdapter t).getAt ["parameters", "type"] = some (Json.str "OBJECT"))
    ∧ (∀ p : ToolParam,
        (convertParamGemini p).get "type" = some (Json.str (toGeminiType p.type.toStr)))
    ∧ (∀ (p : ToolParam) (ik : ParamType), p.type = ParamType.array → p.items = some ik →
        (convertParamGemini p).get "items"
          = some (Json.obj [("type", Json.str (toGeminiType ik.toStr))]))
    ∧ (∀ (p : ToolParam) (vs : List String), p.enum = some vs →
        (convertParamGemini p).get "enum" = some (Json.arr (vs.map Json.str)))
    ∧ (∀ (p : ToolParam) (d : String), p.description = some d → d.isEmpty = false →
        (convertParamGemini p).get "description" = some (Json.str d))
    ∧ convertParamGemini arrayStringParam
        = Json.obj [("type", Json.str "ARRAY"), ("items", Json.obj [("type", Json.str "STRING")])]
    ∧ convertParamOpenai arrayStringParam
        = Json.obj [("type", Json.str "array"), ("items", Json.obj [("type", Json.str "string")])]
    ∧ convertParamAnthropic arrayStringParam
        = Json.obj [("type", Json.str "array"), ("items", Json.obj [("type", Json.str "string")])]
    ∧ convertParamMistral arrayStringParam
        = Json.obj [("type", Json.str "array"), ("items", Json.obj [("type", Json.str "string")])] := by
  refine ⟨fun t => rfl, convertParamGemini_get_type, ?_,
    convertParamGemini_get_enum, convertParamGemini_get_description, ?_, rfl, rfl, rfl⟩
  · intro p ik hty hit
    rw [convertParamGemini_get_items, hty, hit]
    rfl
  · simp only [convertParamGemini, arrayStringParam, ToolParam.type, ToolParam.description,
      ToolParam.required, ToolParam.default, ToolParam.enum, ToolParam.items, ParamType.toStr,
      toGeminiType_array_eval, toGeminiType_string_eval]
    rfl

theorem gemini_uppercase_type_tags_witness :
    (geminiAdapter weatherTool).getAt ["parameters", "type"] = some (Json.str "OBJECT")
    ∧ (convertParamGemini richParam).get "type" = some (Json.str "ARRAY")
    ∧ (convertParamGemini richParam).get "items" = some (Json.obj [("type", Json.str "NUMBER")])
    ∧ (convertParamGemini richParam).get "enum" = some (Json.arr [Json.str "a", Json.str "B"])
    ∧ (convertParamGemini richParam).get "description" = some (Json.str "level") := by
  refine ⟨gemini_uppercase_type_tags.1 weatherTool, ?_, ?_, ?_, ?_⟩
  · have h := gemini_uppercase_type_tags.2.1 richParam
    rw [show richParam.type.toStr = "array" from rfl, toGeminiType_array_eval] at h
    exact h
  · have h := gemini_uppercase_type_tags.2.2.1 richParam ParamType.number rfl rfl
    rw [show ParamType.number.toStr = "number" from rfl, toGeminiType_number_eval] at h
    exact h
  · exact gemini_uppercase_type_tags.2.2.2.1 richParam ["a", "B"] rfl
  · exact gemini_uppercase_type_tags.2.2.2.2.1 richParam "level" rfl rfl

theorem adapters_none_of_not_mem (provider : String) (h : provider ∉ getProviders) :
    adapters provider = none := by
  simp only [getProviders, List.mem_cons, List.not_mem_nil, or_false, not_or] at h
  obtain ⟨h1, h2, h3, h4⟩ := h
  simp [adapters, h1, h2, h3, h4]

theorem adapt_ok_of_mem (tool : UniversalTool) (provider : String)
    (h : provider ∈ getProviders) : ∃ j, adapt tool provider = Except.ok j := by
  simp only [getProviders, List.mem_cons, List.not_mem_nil, or_false] at h
  rcases h with rfl | rfl | rfl | rfl <;> exact ⟨_, rfl⟩

/-- C2: `adapt` fails with the unknown-provider error, whose message carries
the offending identifier and enumerates the four registered identifiers, for
every unregistered provider string, and succeeds for each registered one. -/
theorem adapt_unknown_provider (tool : UniversalTool) (provider : String) :
    (provider ∉ getProviders →
      adapt tool provider = Except.error
        ("Unknown provider: " ++ provider ++ ". Supported providers: "
          ++ String.intercalate ", " getProviders))
    ∧ (provider ∈ getProviders → ∃ j, adapt tool provider = Except.ok j)
    ∧ getProviders = ["openai", "anthropic", "gemini", "mistral"]
    ∧ String.intercalate ", " getProviders = "openai, anthropic, gemini, mistral" := by
  refine ⟨?_, adapt_ok_of_mem tool provider, rfl, rfl⟩
  intro h
  rw [adapt, adapters_none_of_not_mem provider h]

theorem adapt_unknown_provider_witness :
    adapt sampleTool "bogus" = Except.error
      ("Unknown provider: " ++ "bogus" ++ ". Supported providers: "
        ++ String.intercalate ", " getProviders)
    ∧ ∃ j, adapt sampleTool "openai" = Except.ok j :=
  ⟨(adapt_unknown_provider sampleTool "bogus").1 (by decide),
   (adapt_unknown_provider sampleTool "openai").2.1 (by decide)⟩

/-- C1 counterexample: `adaptAll` applied to the empty tool list and an
unregistered provider returns the empty result instead of failing. -/
theorem adaptAll_empty_unknown_returns_ok :
    "bogus" ∉ getProviders ∧ adaptAll [] "bogus" = Except.ok [] :=
  ⟨by decide, rfl⟩

/-- C1 amended: `adaptAll` resolves the provider through `adapt` once per
element rather than once per call; on a non-empty list with an unregistered
provider it fails with the unknown-provider error before returning any result,
while the empty list maps to the empty result even for an unregistered
provider. -/
theorem adaptAll_unknown_provider_behavior (tools : List UniversalTool)
    (provider : String) (hp : provider ∉ getProviders) :
    (tools ≠ [] → adaptAll tools provider = Except.error
        ("Unknown provider: " ++ provider ++ ". Supported providers: "
          ++ String.intercalate ", " getProviders))
    ∧ adaptAll [] provider = Except.ok [] := by
  have hada : adapters provider = none := adapters_none_of_not_mem provider hp
  refine ⟨?_, rfl⟩
  intro hne
  obtain ⟨t, rest, rfl⟩ := List.exists_cons_of_ne_nil hne
  simp [adaptAll, adapt, hada, List.mapM, List.mapM.loop, Bind.bind, Except.bind]

theorem adaptAll_unknown_provider_behavior_witness :
    adaptAll [sampleTool] "bogus" = Except.error
      ("Unknown provider: " ++ "bogus" ++ ". Supported providers: "
        ++ String.intercalate ", " getProviders)
    ∧ adaptAll [] "bogus" = Except.ok [] :=
  ⟨(adaptAll_unknown_provider_behavior [sampleTool] "bogus" (by decide)).1 (by simp),
   (adaptAll_unknown_provider_behavior [sampleTool] "bogus" (by decide)).2⟩

/-- C8: every registered provider converts every tool successfully, and a tool
with an empty parameter mapping yields an empty properties object and an empty
required list under all four providers. -/
theorem converters_total_and_empty_params (provider : String) (t u : UniversalTool)
    (hm : provider ∈ getProviders) (he : u.params = []) :
    (∃ j, adapt t provider = Except.ok j)
    ∧ (openaiAdapter u).getAt ["function", "parameters", "properties"] = some (Json.obj [])
    ∧ (openaiAdapter u).getAt ["function", "parameters", "required"] = some (Json.arr [])
    ∧ (anthropicAdapter u).getAt ["input_schema", "properties"] = some (Json.obj [])
    ∧ (anthropicAdapter u).getAt ["input_schema", "required"] = some (Json.arr [])
    ∧ (geminiAdapter u).getAt ["parameters", "properties"] = some (Json.obj [])
    ∧ (geminiAdapter u).getAt ["parameters", "required"] = some (Json.arr [])
    ∧ (mistralAdapter u).getAt ["function", "parameters", "properties"] = some (Json.obj [])
    ∧ (mistralAdapter u).getAt ["function", "parameters", "required"] = some (Json.arr []) := by
  refine ⟨adapt_ok_of_mem t provider hm, ?_, ?_, ?_, ?_, ?_, ?_, ?_, ?_⟩ <;>
    simp [openaiAdapter, anthropicAdapter, geminiAdapter, mistralAdapter, he,
      Json.getAt, Json.get, lookupKey]

theorem converters_total_and_empty_params_witness :
    (∃ j, adapt weatherTool "gemini" = Except.ok j)
    ∧ (openaiAdapter sampleTool).getAt ["function", "parameters", "properties"]
        = some (Json.obj [])
    ∧ (openaiAdapter sampleTool).getAt ["function", "parameters", "required"]
        = some (Json.arr [])
    ∧ (anthropicAdapter sampleTool).getAt ["input_schema", "properties"] = some (Json.obj [])
    ∧ (anthropicAdapter sampleTool).getAt ["input_schema", "required"] = some (Json.arr [])
    ∧ (geminiAdapter sampleTool).getAt ["parameters", "properties"] = some (Json.obj [])
    ∧ (geminiAdapter sampleTool).getAt ["parameters", "required"] = some (Json.arr [])
    ∧ (mistralAdapter sampleTool).getAt ["function", "parameters", "properties"]
        = some (Json.obj [])
    ∧ (mistralAdapter sampleTool).getAt ["function", "parameters", "required"]
        = some (Json.arr []) :=
  converters_total_and_empty_params "gemini" weatherTool sampleTool (by decide) rfl

theorem mem_requiredNames (ps : List (String × ToolParam)) (n : String) :
    Json.str n ∈ (ps.filter (fun e => truthyOptBool e.2.required)).map (fun e => Json.str e.1)
      ↔ ∃ p, (n, p) ∈ ps ∧ p.required = some true := by
  simp only [List.mem_map, List.mem_filter, truthyOptBool_eq_true, Json.str.injEq]
  constructor
  · rintro ⟨⟨a, b⟩, ⟨hm, hr⟩, rfl⟩
    exact ⟨b, hm, hr⟩
  · rintro ⟨p, hm, hr⟩
    exact ⟨⟨n, p⟩, ⟨hm, hr⟩, rfl⟩

theorem mem_propertyKeys (ps : List (String × ToolParam)) (conv : ToolParam → Json) (n : String) :
    n ∈ (ps.map (fun e => (e.1, conv e.2))).map Prod.fst ↔ ∃ p, (n, p) ∈ ps := by
  simp only [List.map_map, List.mem_map, Function.comp]
  constructor
  · rintro ⟨⟨a, b⟩, hm, rfl⟩
    exact ⟨b, hm⟩
  · rintro ⟨p, hm⟩
    exact ⟨⟨n, p⟩, hm, rfl⟩

/-- C6: for every tool and every registered provider, the output required list
holds exactly the parameter names declared with required = true, and every
declared parameter name appears among the output properties keys (so an
optional parameter is excluded from required but kept in properties). -/
theorem required_and_properties_fidelity (t : UniversalTool) (n : String) :
    ((∃ req, (openaiAdapter t).getAt ["function", "parameters", "required"] = some (Json.arr req)
        ∧ (Json.str n ∈ req ↔ ∃ p, (n, p) ∈ t.params ∧ p.required = some true))
      ∧ (∃ ks, ((openaiAdapter t).getAt ["function", "parameters", "properties"]).bind Json.keys = some ks
        ∧ (n ∈ ks ↔ ∃ p, (n, p) ∈ t.params)))
    ∧ ((∃ req, (anthropicAdapter t).getAt ["input_schema", "required"] = some (Json.arr req)
        ∧ (Json.str n ∈ req ↔ ∃ p, (n, p) ∈ t.params ∧ p.required = some true))
      ∧ (∃ ks, ((anthropicAdapter t).getAt ["input_schema", "properties"]).bind Json.keys = some ks
        ∧ (n ∈ ks ↔ ∃ p, (n, p) ∈ t.params)))
    ∧ ((∃ req, (geminiAdapter t).getAt ["parameters", "required"] = some (Json.arr req)
        ∧ (Json.str n ∈ req ↔ ∃ p, (n, p) ∈ t.params ∧ p.required = some true))
      ∧ (∃ ks, ((geminiAdapter t).getAt ["parameters", "properties"]).bind Json.keys = some ks
        ∧ (n ∈ ks ↔ ∃ p, (n, p) ∈ t.params)))
    ∧ ((∃ req, (mistralAdapter t).getAt ["function", "parameters", "required"] = some (Json.arr req)
        ∧ (Json.str n ∈ req ↔ ∃ p, (n, p) ∈ t.params ∧ p.required = some true))
      ∧ (∃ ks, ((mistralAdapter t).getAt ["function", "parameters", "properties"]).bind Json.keys = some ks
        ∧ (n ∈ ks ↔ ∃ p, (n, p) ∈ t.params))) := by
  refine ⟨⟨⟨_, rfl, mem_requiredNames t.params n⟩, ⟨_, rfl, mem_propertyKeys t.params _ n⟩⟩,
    ⟨⟨_, rfl, mem_requiredNames t.params n⟩, ⟨_, rfl, mem_propertyKeys t.params _ n⟩⟩,
    ⟨⟨_, rfl, mem_requiredNames t.params n⟩, ⟨_, rfl, mem_propertyKeys t.params _ n⟩⟩,
    ⟨⟨_, rfl, mem_requiredNames t.params n⟩, ⟨_, rfl, mem_propertyKeys t.params _ n⟩⟩⟩

theorem convertParamOpenai_congr (p q : ToolParam) (h : sameExceptProperties p q) :
    convertParamOpenai p = convertParamOpenai q := by
  obtain ⟨t1, d1, r1, v1, e1, i1, pr1⟩ := p
  obtain ⟨t2, d2, r2, v2, e2, i2, pr2⟩ := q
  obtain ⟨ht, hd, hr, hv, he, hi⟩ := h
  simp only [ToolParam.type, ToolParam.description, ToolParam.required, ToolParam.default,
    ToolParam.enum, ToolParam.items] at ht hd hr hv he hi
  subst ht; subst hd; subst hr; subst hv; subst he; subst hi
  rfl

theorem convertParamGemini_congr (p q : ToolParam) (h : sameExceptProperties p q) :
    convertParamGemini p = convertParamGemini q := by
  obtain ⟨t1, d1, r1, v1, e1, i1, pr1⟩ := p
  obtain ⟨t2, d2, r2, v2, e2, i2, pr2⟩ := q
  obtain ⟨ht, hd, hr, hv, he, hi⟩ := h
  simp only [ToolParam.type, ToolParam.description, ToolParam.required, ToolParam.default,
    ToolParam.enum, ToolParam.items] at ht hd hr hv he hi
  subst ht; subst hd; subst hr; subst hv; subst he; subst hi
  rfl

theorem paramsParts_congr (conv : ToolParam → Json)
    (hconv : ∀ p q, sameExceptProperties p q → conv p = conv q)
    {ps qs : List (String × ToolParam)}
    (h : List.Forall₂ (fun e f => e.1 = f.1 ∧ sameExceptProperties e.2 f.2) ps qs) :
    ps.map (fun e => (e.1, conv e.2)) = qs.map (fun e => (e.1, conv e.2))
    ∧ (ps.filter (fun e => truthyOptBool e.2.required)).map (fun e => Json.str e.1)
      = (qs.filter (fun e => truthyOptBool e.2.required)).map (fun e => Json.str e.1) := by
  induction h with
  | nil => exact ⟨rfl, rfl⟩
  | @cons a b l1 l2 hef hrest ih =>
      obtain ⟨h1, h2⟩ := hef
      have hr : truthyOptBool a.2.required = truthyOptBool b.2.required := by
        rw [h2.2.2.1]
      refine ⟨?_, ?_⟩
      · simp only [List.map_cons, ih.1, h1, hconv _ _ h2]
      · cases hb : truthyOptBool b.2.required <;>
          simp [List.filter_cons, hr, hb, h1, ih.2]

/-- C9: no converter reads the nestedProperties field: two tools that agree on
name, description, and on every parameter field except `properties` convert to
equal outputs under all four providers. -/
theorem adapters_ignore_nested_properties (t u : UniversalTool)
    (hn : t.name = u.name) (hd : t.description = u.description)
    (hp : List.Forall₂ (fun e f => e.1 = f.1 ∧ sameExceptProperties e.2 f.2) t.params u.params) :
    openaiAdapter t = openaiAdapter u ∧ anthropicAdapter t = anthropicAdapter u
    ∧ geminiAdapter t = geminiAdapter u ∧ mistralAdapter t = mistralAdapter u := by
  have ho := paramsParts_congr convertParamOpenai convertParamOpenai_congr hp
  have hg := paramsParts_congr convertParamGemini convertParamGemini_congr hp
  have ha := paramsParts_congr convertParamAnthropic
    (fun p q h => by
      rw [convertParamAnthropic_eq_openai, convertParamAnthropic_eq_openai]
      exact convertParamOpenai_congr p q h) hp
  have hm := paramsParts_congr convertParamMistral
    (fun p q h => by
      rw [convertParamMistral_eq_openai, convertParamMistral_eq_openai]
      exact convertParamOpenai_congr p q h) hp
  refine ⟨?_, ?_, ?_, ?_⟩ <;>
    simp only [openaiAdapter, anthropicAdapter, geminiAdapter, mistralAdapter, hn, hd,
      ho.1, ho.2, hg.1, hg.2, ha.1, ha.2, hm.1, hm.2]

theorem adapters_ignore_nested_properties_witness :
    openaiAdapter nestedToolA = openaiAdapter nestedToolB
    ∧ anthropicAdapter nestedToolA = anthropicAdapter nestedToolB
    ∧ geminiAdapter nestedToolA = geminiAdapter nestedToolB
    ∧ mistralAdapter nestedToolA = mistralAdapter nestedToolB := by
  refine adapters_ignore_nested_properties nestedToolA nestedToolB rfl rfl ?_
  exact List.Forall₂.cons ⟨rfl, rfl, rfl, rfl, rfl, rfl, rfl⟩ List.Forall₂.nil
